import Mathlib

/-!
Shallow embedding of the HomeAssistant-SupportBackend repository.

The repository is a small Express + SQLite REST backend with three
structurally identical DAO modules (switches, temperatures, lights) and a
session-based login.  Each DAO table is embedded as a list of rows plus the
auto-increment counter; each DAO operation is a pure function on that state.
The callback error of the underlying sqlite `db.run` is modelled by an
explicit `Option String` argument on the write operations (`some e` means
sqlite reported error `e`, in which case the promise rejects).  Rows are kept
in insertion order, matching `SELECT` natural (rowid) order; `db.get` returns
the first matching row, modelled with `List.find?`.  Dates are ISO-8601 UTC
strings whose lexicographic order coincides with chronological order, so a
date is modelled as an integer timestamp.
-/

/-- A persisted row of one of the three resource tables
(`id` integer primary key, `date`, `value`, `user`). -/
structure Row (V : Type) where
  id : Int
  date : Int
  value : V
  user : Int
deriving DecidableEq

/-- One resource table: its rows in rowid order plus the next auto-increment id. -/
structure Table (V : Type) where
  rows : List (Row V)
  nextId : Int
deriving DecidableEq

/-- Result of a DAO read: either a row or the `{ error: <string> }` object the
DAO resolves with when no row matches (NOT a rejected promise). -/
inductive DaoResult (V : Type) where
  | row (r : Row V)
  | err (msg : String)
deriving DecidableEq

/-- The fields of the record argument that the DAO statements actually read
(`s.date`, `s.value`, `s.user`). -/
structure RecFields (V : Type) where
  date : Int
  value : V
  user : Int
deriving DecidableEq

variable {V : Type}

/-- The `WHERE id=? and user=?` condition shared by get/update/delete. -/
def matchesKey (id user : Int) (r : Row V) : Bool :=
  r.id == id && r.user == user

/-- `SELECT * FROM t WHERE id=? and user=?` through `db.get`, then either the
`{ error: msg }` object or the row (the three DAOs differ only in `msg`). -/
def daoGet (msg : String) (db : Table V) (user id : Int) : DaoResult V :=
  match db.rows.find? (matchesKey id user) with
  | none => .err msg
  | some r => .row r

/-- `SELECT * FROM t WHERE user=?` through `db.all`. -/
def daoList (db : Table V) (user : Int) : List (Row V) :=
  db.rows.filter (fun r => r.user == user)

/-- Effect of `INSERT INTO t (date, value, user) VALUES(?, ?, ?)`:
the new row gets the auto-increment id (`this.lastID`). -/
def daoInsertRow (db : Table V) (s : RecFields V) : Table V :=
  ⟨db.rows ++ [⟨db.nextId, s.date, s.value, s.user⟩], db.nextId + 1⟩

/-- The shared body of `createSwitch`/`createTemperature`/`createLight`:
INSERT, rejecting on a sqlite error, then resolve with the read-back
`get(s.user, this.lastID)`. -/
def daoCreate (msg : String) (dbErr : Option String) (db : Table V) (s : RecFields V) :
    Except String (Table V × DaoResult V) :=
  match dbErr with
  | some e => .error e
  | none =>
    let db2 := daoInsertRow db s
    .ok (db2, daoGet msg db2 s.user db.nextId)

/-- Per-row effect of `UPDATE t SET date = ?, value = ? WHERE id = ? and user = ?`. -/
def applyUpdate (s : RecFields V) (id user : Int) (r : Row V) : Row V :=
  if matchesKey id user r then { r with date := s.date, value := s.value } else r

/-- The shared body of `updateSwitch`/`updateLight`: run the UPDATE (its
rows-affected count is never inspected), rejecting on a sqlite error, then
resolve with `get(s.user, id)` — note `s.user`, not the `user` argument. -/
def daoUpdate (msg : String) (dbErr : Option String) (db : Table V)
    (user id : Int) (s : RecFields V) :
    Except String (Table V × DaoResult V) :=
  match dbErr with
  | some e => .error e
  | none =>
    let db2 : Table V := ⟨db.rows.map (applyUpdate s id user), db.nextId⟩
    .ok (db2, daoGet msg db2 s.user id)

/-- The shared body of `deleteSwitch`/`deleteTemperature`/`deleteLight`:
`DELETE FROM t WHERE id = ? and user = ?`, rejecting on a sqlite error and
resolving with `null` otherwise (zero deleted rows is not an error). -/
def daoDelete (dbErr : Option String) (db : Table V) (user id : Int) :
    Except String (Table V) :=
  match dbErr with
  | some e => .error e
  | none => .ok ⟨db.rows.filter (fun r => !(matchesKey id user r)), db.nextId⟩

/-- `ORDER BY date DESC LIMIT 1` through `db.get`: a row of maximal date,
`none` on an empty result set. -/
def maxByDate : List (Row V) → Option (Row V)
  | [] => none
  | r :: rs =>
    match maxByDate rs with
    | none => some r
    | some m => if m.date > r.date then some m else some r

/- dao-switches.js (value column is boolean) -/

def listSwitches (db : Table Bool) (user : Int) : List (Row Bool) :=
  daoList db user

def getSwitch (db : Table Bool) (user id : Int) : DaoResult Bool :=
  daoGet "Switch not found." db user id

def createSwitch (dbErr : Option String) (db : Table Bool) (s : RecFields Bool) :
    Except String (Table Bool × DaoResult Bool) :=
  daoCreate "Switch not found." dbErr db s

def updateSwitch (dbErr : Option String) (db : Table Bool) (user id : Int)
    (s : RecFields Bool) : Except String (Table Bool × DaoResult Bool) :=
  daoUpdate "Switch not found." dbErr db user id s

def deleteSwitch (dbErr : Option String) (db : Table Bool) (user id : Int) :
    Except String (Table Bool) :=
  daoDelete dbErr db user id

/- dao-lights.js (value column is integer) -/

def listLights (db : Table Int) (user : Int) : List (Row Int) :=
  daoList db user

def getLight (db : Table Int) (user id : Int) : DaoResult Int :=
  daoGet "Light not found." db user id

def createLight (dbErr : Option String) (db : Table Int) (s : RecFields Int) :
    Except String (Table Int × DaoResult Int) :=
  daoCreate "Light not found." dbErr db s

def updateLight (dbErr : Option String) (db : Table Int) (user id : Int)
    (s : RecFields Int) : Except String (Table Int × DaoResult Int) :=
  daoUpdate "Light not found." dbErr db user id s

def deleteLight (dbErr : Option String) (db : Table Int) (user id : Int) :
    Except String (Table Int) :=
  daoDelete dbErr db user id

/- dao-temperatures.js (value column is a float; only its identity matters to
the DAO, so it is embedded as an integer-valued reading) -/

/-- `listTemperatures(user, filter)` — the `filter` argument is accepted and
ignored by the source, and the routes do not pass it. -/
def listTemperatures (db : Table Int) (user : Int) (_filterArg : Option String) :
    List (Row Int) :=
  daoList db user

def getTemperature (db : Table Int) (user id : Int) : DaoResult Int :=
  daoGet "Temperature not found." db user id

/-- `SELECT * FROM temperatures WHERE user=? ORDER BY date DESC LIMIT 1`. -/
def getLastTemperature (db : Table Int) (user : Int) : DaoResult Int :=
  match maxByDate (daoList db user) with
  | none => .err "There is no temperature for this sensor!"
  | some r => .row r

def createTemperature (dbErr : Option String) (db : Table Int) (s : RecFields Int) :
    Except String (Table Int × DaoResult Int) :=
  daoCreate "Temperature not found." dbErr db s

def deleteTemperature (dbErr : Option String) (db : Table Int) (user id : Int) :
    Except String (Table Int) :=
  daoDelete dbErr db user id

/- index.js: HTTP layer -/

/-- An HTTP response of a resource route. `okJson` is the unchecked
`res.json(result)` used by POST/PUT (status 200 even when `result` is the
DAO's error object). -/
inductive Resp (V : Type) where
  | okRow (r : Row V)
  | okList (rs : List (Row V))
  | okEmpty
  | okJson (res : DaoResult V)
  | notFound (msg : String)
  | unprocessable (msg : String)
  | unavailable (msg : String)
  | unauthorized (msg : String)
deriving DecidableEq

def Resp.status : Resp V → Nat
  | .okRow _ => 200
  | .okList _ => 200
  | .okEmpty => 200
  | .okJson _ => 200
  | .notFound _ => 404
  | .unprocessable _ => 422
  | .unavailable _ => 503
  | .unauthorized _ => 401

/-- The `isLoggedIn` middleware: pass through when the session is
authenticated, otherwise reply 401 `{error: 'Not authorized'}`.  Every resource
route in the source has this middleware commented out, so no route below uses it. -/
def isLoggedIn (V : Type) (authenticated : Bool) : Option (Resp V) :=
  if authenticated then none else some (.unauthorized "Not authorized")

/-- `GET /api/temperatures`: `listTemperatures(1)` then 200. -/
def listTemperaturesRoute (db : Table Int) : Resp Int :=
  .okList (listTemperatures db 1 none)

/-- `GET /api/temperatures/last`: `getLastTemperature(1)`, error object to 404. -/
def getLastTemperatureRoute (db : Table Int) : Resp Int :=
  match getLastTemperature db 1 with
  | .err m => .notFound m
  | .row r => .okRow r

/-- `GET /api/temperatures/:id`: `getTemperature(1, id)`, error object to 404. -/
def getTemperatureRoute (db : Table Int) (id : Int) : Resp Int :=
  match getTemperature db 1 id with
  | .err m => .notFound m
  | .row r => .okRow r

/-- `POST /api/temperatures`: validate `value`, then
`createTemperature({date: now, value, user: 1})`; 503 on rejection, otherwise
`res.json(result)` with no check of the read-back. -/
def postTemperatureRoute (dbErr : Option String) (db : Table Int)
    (fieldsValid : Bool) (vmsg : String) (bodyValue : Int) (now : Int) :
    Resp Int × Table Int :=
  if fieldsValid = false then (.unprocessable vmsg, db)
  else
    match createTemperature dbErr db ⟨now, bodyValue, 1⟩ with
    | .error e =>
        (.unavailable ("Database error during the creation of new temperature: " ++ e), db)
    | .ok (db2, res) => (.okJson res, db2)

/-- `DELETE /api/temperatures/:id`: `deleteTemperature(1, id)`, then 200 `{}`;
503 on rejection. -/
def deleteTemperatureRoute (dbErr : Option String) (db : Table Int) (id : Int) :
    Resp Int × Table Int :=
  match deleteTemperature dbErr db 1 id with
  | .error e =>
      (.unavailable ("Database error during the deletion of temperature "
        ++ toString id ++ ": " ++ e ++ " "), db)
  | .ok db2 => (.okEmpty, db2)

/-- `GET /api/switches/:id`: `getSwitch(1, id)`, error object to 404. -/
def getSwitchRoute (db : Table Bool) (id : Int) : Resp Bool :=
  match getSwitch db 1 id with
  | .err m => .notFound m
  | .row r => .okRow r

/-- `GET /api/lights/:id`: `getLight(1, id)`, error object to 404. -/
def getLightRoute (db : Table Int) (id : Int) : Resp Int :=
  match getLight db 1 id with
  | .err m => .notFound m
  | .row r => .okRow r

/-- `PUT /api/switches/:id`: express-validator check (`fieldsValid`/`vmsg`),
then the `req.body.id !== Number(req.params.id)` check, then
`getSwitch(req.body.user, req.body.id)` (404 on its error object), then
`s.date = now; s.value = req.body.value` and
`updateSwitch(req.body.user, s.id, s)`; 503 on rejection, otherwise
`res.json(result)` unchecked. -/
def putSwitchRoute (dbErr : Option String) (db : Table Bool) (paramId : Int)
    (fieldsValid : Bool) (vmsg : String) (bodyId bodyUser : Int)
    (bodyValue : Bool) (now : Int) : Resp Bool × Table Bool :=
  if fieldsValid = false then (.unprocessable vmsg, db)
  else if bodyId ≠ paramId then (.unprocessable "URL and body id mismatch", db)
  else
    match getSwitch db bodyUser bodyId with
    | .err m => (.notFound m, db)
    | .row s =>
      match updateSwitch dbErr db bodyUser s.id ⟨now, bodyValue, s.user⟩ with
      | .error _ =>
          (.unavailable ("Database error during the update of switch " ++ toString paramId), db)
      | .ok (db2, res) => (.okJson res, db2)

/-- `PUT /api/lights/:id`: same shape as the switches PUT over the lights DAO. -/
def putLightRoute (dbErr : Option String) (db : Table Int) (paramId : Int)
    (fieldsValid : Bool) (vmsg : String) (bodyId bodyUser : Int)
    (bodyValue : Int) (now : Int) : Resp Int × Table Int :=
  if fieldsValid = false then (.unprocessable vmsg, db)
  else if bodyId ≠ paramId then (.unprocessable "URL and body id mismatch", db)
  else
    match getLight db bodyUser bodyId with
    | .err m => (.notFound m, db)
    | .row s =>
      match updateLight dbErr db bodyUser s.id ⟨now, bodyValue, s.user⟩ with
      | .error _ =>
          (.unavailable ("Database error during the update of light " ++ toString paramId), db)
      | .ok (db2, res) => (.okJson res, db2)

/- Session / login -/

/-- The user object stored in the session (`id`, `username`, `name`). -/
structure User where
  id : Int
  username : String
  name : String
deriving DecidableEq

/-- A stored credential pair together with the user it authenticates. -/
structure Credential where
  username : String
  password : String
  user : User
deriving DecidableEq

/-- Modelled from the spec: `dao-users.js` is not part of src/; the spec
treats it as an opaque `verify(username, password) -> user | null` — a user
object when a stored credential pair matches, null otherwise. -/
def getUser (credDb : List Credential) (username password : String) : Option User :=
  (credDb.find? (fun c => c.username == username && c.password == password)).map
    (fun c => c.user)

/-- Outcome of the passport `LocalStrategy` verify callback:
`cb(null, user)` or `cb(null, false, info)`. -/
inductive VerifyResult where
  | ok (u : User)
  | failure (info : String)
deriving DecidableEq

/-- The `LocalStrategy` verify function: `userDao.getUser(username, password)`,
then the uniform failure message when it is falsy. -/
def localVerify (credDb : List Credential) (username password : String) :
    VerifyResult :=
  match getUser credDb username password with
  | none => .failure "Incorrect username or password"
  | some u => .ok u

/-- Response of `POST /api/sessions`. -/
inductive LoginResp where
  | okUser (u : User)
  | unauthorizedErr (info : String)
deriving DecidableEq

def LoginResp.status : LoginResp → Nat
  | .okUser _ => 200
  | .unauthorizedErr _ => 401

/-- `POST /api/sessions`: 401 `{error: info}` when verify fails, otherwise
login and `res.json(req.user)` (200). -/
def postSessionsRoute (credDb : List Credential) (username password : String) :
    LoginResp :=
  match localVerify credDb username password with
  | .failure info => .unauthorizedErr info
  | .ok u => .okUser u

/-! ### Helper lemmas about the embedded DAO layer -/

theorem matchesKey_iff {id user : Int} {r : Row V} :
    matchesKey id user r = true ↔ r.id = id ∧ r.user = user := by
  simp [matchesKey]

theorem map_id_of_fixed {α : Type} {l : List α} {f : α → α}
    (h : ∀ a ∈ l, f a = a) : l.map f = l := by
  induction l with
  | nil => rfl
  | cons x xs ih => simp_all

theorem daoGet_err_of_no_match {msg : String} {db : Table V} {user id : Int}
    (h : ∀ r ∈ db.rows, ¬(r.id = id ∧ r.user = user)) :
    daoGet msg db user id = .err msg := by
  have hf : db.rows.find? (matchesKey id user) = none := by
    rw [List.find?_eq_none]
    intro r hr
    rw [matchesKey_iff]
    exact h r hr
  unfold daoGet
  rw [hf]

theorem daoGet_row_mem {msg : String} {db : Table V} {user id : Int} {r : Row V}
    (h : daoGet msg db user id = .row r) :
    r ∈ db.rows ∧ r.id = id ∧ r.user = user := by
  unfold daoGet at h
  cases hf : db.rows.find? (matchesKey id user) with
  | none => rw [hf] at h; cases h
  | some r0 =>
    rw [hf] at h
    cases h
    exact ⟨List.mem_of_find?_eq_some hf, matchesKey_iff.mp (List.find?_some hf)⟩

theorem daoGet_ne_err_row {msg msg2 : String} {db : Table V} {user id : Int} {r : Row V} :
    daoGet msg db user id = .err msg2 → daoGet msg db user id = .row r → False := by
  intro h1 h2
  rw [h1] at h2
  cases h2

theorem applyUpdate_of_no_match {s : RecFields V} {id user : Int} {r : Row V}
    (h : ¬(r.id = id ∧ r.user = user)) :
    applyUpdate s id user r = r := by
  unfold applyUpdate
  rw [if_neg]
  rw [matchesKey_iff]
  exact h

theorem applyUpdate_of_match {s : RecFields V} {id user : Int} {r : Row V}
    (h : r.id = id ∧ r.user = user) :
    applyUpdate s id user r = { r with date := s.date, value := s.value } := by
  unfold applyUpdate
  rw [if_pos]
  rw [matchesKey_iff]
  exact h

theorem applyUpdate_id_user (s : RecFields V) (id user : Int) (r : Row V) :
    (applyUpdate s id user r).id = r.id ∧ (applyUpdate s id user r).user = r.user := by
  unfold applyUpdate
  split <;> exact ⟨rfl, rfl⟩

theorem daoUpdate_ok (msg : String) (db : Table V) (user id : Int) (s : RecFields V) :
    daoUpdate msg none db user id s =
      .ok (⟨db.rows.map (applyUpdate s id user), db.nextId⟩,
        daoGet msg ⟨db.rows.map (applyUpdate s id user), db.nextId⟩ s.user id) := rfl

theorem daoUpdate_no_match {msg : String} {db : Table V} {user id : Int}
    {s : RecFields V} (h : ∀ r ∈ db.rows, ¬(r.id = id ∧ r.user = user)) :
    daoUpdate msg none db user id s = .ok (db, daoGet msg db s.user id) := by
  have hmap : db.rows.map (applyUpdate s id user) = db.rows :=
    map_id_of_fixed (fun r hr => applyUpdate_of_no_match (h r hr))
  rw [daoUpdate_ok, hmap]

theorem daoDelete_get_err (msg : String) (db : Table V) (user id : Int) :
    ∃ db2, daoDelete none db user id = .ok db2 ∧
      daoGet msg db2 user id = .err msg ∧
      (∀ r ∈ db.rows, ¬(r.id = id ∧ r.user = user) → r ∈ db2.rows) ∧
      (∀ r ∈ db2.rows, r ∈ db.rows) := by
  refine ⟨⟨db.rows.filter (fun r => !(matchesKey id user r)), db.nextId⟩, rfl, ?_, ?_, ?_⟩
  · apply daoGet_err_of_no_match
    intro r hr
    have := (List.mem_filter.mp hr).2
    rw [Bool.not_eq_true', ← Bool.not_eq_true] at this
    rw [← matchesKey_iff]
    exact this
  · intro r hr hno
    apply List.mem_filter.mpr
    refine ⟨hr, ?_⟩
    rw [Bool.not_eq_true', ← Bool.not_eq_true]
    rw [← matchesKey_iff] at hno
    exact hno
  · intro r hr
    exact (List.mem_filter.mp hr).1

theorem maxByDate_eq_none {l : List (Row V)} :
    maxByDate l = none ↔ l = [] := by
  cases l with
  | nil => simp [maxByDate]
  | cons x xs =>
    constructor
    · intro h
      exfalso
      cases hm : maxByDate xs with
      | none => simp [maxByDate, hm] at h
      | some m =>
        simp only [maxByDate, hm] at h
        by_cases hd : m.date > x.date
        · simp [hd] at h
        · simp [hd] at h
    · intro h; cases h
  
theorem maxByDate_mem {l : List (Row V)} {r : Row V}
    (h : maxByDate l = some r) : r ∈ l := by
  induction l with
  | nil => cases h
  | cons x xs ih =>
    cases hm : maxByDate xs with
    | none =>
      simp only [maxByDate, hm] at h
      injection h with h2
      subst h2
      exact List.mem_cons_self x xs
    | some m =>
      simp only [maxByDate, hm] at h
      by_cases hd : m.date > x.date
      · rw [if_pos hd] at h
        injection h with h2
        subst h2
        exact List.mem_cons_of_mem x (ih hm)
      · rw [if_neg hd] at h
        injection h with h2
        subst h2
        exact List.mem_cons_self x xs
  
theorem maxByDate_ge {l : List (Row V)} {r : Row V}
    (h : maxByDate l = some r) : ∀ x ∈ l, x.date ≤ r.date := by
  induction l generalizing r with
  | nil => cases h
  | cons x xs ih =>
    cases hm : maxByDate xs with
    | none =>
      simp only [maxByDate, hm] at h
      injection h with h2
      subst h2
      have hxs : xs = [] := maxByDate_eq_none.mp hm
      subst hxs
      intro y hy
      rw [List.mem_singleton.mp hy]
    | some m =>
      simp only [maxByDate, hm] at h
      by_cases hd : m.date > x.date
      · rw [if_pos hd] at h
        injection h with h2
        subst h2
        intro y hy
        rcases List.mem_cons.mp hy with hy | hy
        · subst hy; exact Int.le_of_lt hd
        · exact ih hm y hy
      · rw [if_neg hd] at h
        injection h with h2
        subst h2
        intro y hy
        rcases List.mem_cons.mp hy with hy | hy
        · subst hy; exact Int.le_refl _
        · exact Int.le_trans (ih hm y hy) (Int.not_lt.mp hd)

theorem daoUpdate_frame (msg : String) (db : Table V) (user id : Int) (s : RecFields V) :
    ∃ db2 res, daoUpdate msg none db user id s = .ok (db2, res) ∧
      db2.nextId = db.nextId ∧
      db2.rows.length = db.rows.length ∧
      (∀ r ∈ db.rows, r.id = id ∧ r.user = user →
        ({ r with date := s.date, value := s.value } : Row V) ∈ db2.rows) ∧
      (∀ r ∈ db.rows, ¬(r.id = id ∧ r.user = user) → r ∈ db2.rows) ∧
      (∀ r2 ∈ db2.rows, ∃ r, r ∈ db.rows ∧ r2.id = r.id ∧ r2.user = r.user ∧
        (r2 = r ∨ r2 = { r with date := s.date, value := s.value })) := by
  refine ⟨_, _, daoUpdate_ok msg db user id s, rfl, by simp, ?_, ?_, ?_⟩
  · intro r hr hm
    have := List.mem_map_of_mem (applyUpdate s id user) hr
    rwa [applyUpdate_of_match hm] at this
  · intro r hr hm
    have := List.mem_map_of_mem (applyUpdate s id user) hr
    rwa [applyUpdate_of_no_match hm] at this
  · intro r2 hr2
    obtain ⟨r, hr, hq⟩ := List.mem_map.mp hr2
    refine ⟨r, hr, ?_, ?_, ?_⟩
    · rw [← hq]; exact (applyUpdate_id_user s id user r).1
    · rw [← hq]; exact (applyUpdate_id_user s id user r).2
    · by_cases hm : r.id = id ∧ r.user = user
      · right; rw [← hq, applyUpdate_of_match hm]
      · left; rw [← hq, applyUpdate_of_no_match hm]

theorem daoUpdate_readback (msg : String) (db : Table V) (user id : Int)
    (s : RecFields V) :
    ∃ db2 res, daoUpdate msg none db user id s = .ok (db2, res) ∧
      (∀ r ∈ db.rows, r.user ≠ user → r ∈ db2.rows) ∧
      (∀ r ∈ db.rows, r.id = id ∧ r.user = user →
        ({ r with date := s.date, value := s.value } : Row V) ∈ db2.rows) ∧
      (∀ r, res = .row r → r.user = s.user ∧ r.id = id) ∧
      ((∀ r ∈ db.rows, ¬(r.id = id ∧ r.user = s.user)) → res = .err msg) := by
  refine ⟨_, _, daoUpdate_ok msg db user id s, ?_, ?_, ?_, ?_⟩
  · intro r hr hm
    have := List.mem_map_of_mem (applyUpdate s id user) hr
    rwa [applyUpdate_of_no_match (fun hc => hm hc.2)] at this
  · intro r hr hm
    have := List.mem_map_of_mem (applyUpdate s id user) hr
    rwa [applyUpdate_of_match hm] at this
  · intro r hres
    have h := daoGet_row_mem hres
    exact ⟨h.2.2, h.2.1⟩
  · intro hnone
    apply daoGet_err_of_no_match
    intro r2 hr2
    obtain ⟨r, hr, hq⟩ := List.mem_map.mp hr2
    have hid : r2.id = r.id := by rw [← hq]; exact (applyUpdate_id_user s id user r).1
    have hus : r2.user = r.user := by rw [← hq]; exact (applyUpdate_id_user s id user r).2
    intro hc
    exact hnone r hr ⟨hid ▸ hc.1, hus ▸ hc.2⟩

theorem daoCreate_roundtrip (msg : String) (db : Table V) (s : RecFields V)
    (hids : ∀ r ∈ db.rows, r.id < db.nextId) :
    ∃ db2, daoCreate msg none db s =
        .ok (db2, .row ⟨db.nextId, s.date, s.value, s.user⟩) ∧
      daoGet msg db2 s.user db.nextId = .row ⟨db.nextId, s.date, s.value, s.user⟩ ∧
      (∀ r ∈ db.rows, r ∈ db2.rows) := by
  have hget : daoGet msg (daoInsertRow db s) s.user db.nextId =
      .row ⟨db.nextId, s.date, s.value, s.user⟩ := by
    have hnone : db.rows.find? (matchesKey db.nextId s.user) = none := by
      rw [List.find?_eq_none]
      intro r hr hk
      have := (matchesKey_iff.mp hk).1
      have := hids r hr
      omega
    have hone : ([(⟨db.nextId, s.date, s.value, s.user⟩ : Row V)]).find?
        (matchesKey db.nextId s.user) = some ⟨db.nextId, s.date, s.value, s.user⟩ := by
      rw [List.find?_cons_of_pos]
      rw [matchesKey_iff]
      exact ⟨rfl, rfl⟩
    unfold daoGet daoInsertRow
    rw [List.find?_append, hnone, Option.none_or, hone]
  refine ⟨daoInsertRow db s, ?_, hget, ?_⟩
  · show Except.ok (daoInsertRow db s, daoGet msg (daoInsertRow db s) s.user db.nextId) = _
    rw [hget]
  · intro r hr
    unfold daoInsertRow
    exact List.mem_append_left _ hr

theorem daoGet_row_iff {msg : String} {db : Table V} {user id : Int} {r : Row V} :
    daoGet msg db user id = .row r ↔ db.rows.find? (matchesKey id user) = some r := by
  unfold daoGet
  cases hf : db.rows.find? (matchesKey id user) with
  | none => simp
  | some r0 => simp

/-! ### Claim theorems -/

/-- Claim C3: for every `update(user, id, record)` where no row matches both
`id` and `user`, the operation does not reject with a NotFound outcome from
the write itself: the UPDATE's zero-rows-affected outcome is never inspected,
the table is left unchanged, and the promise resolves with whatever the
subsequent `get` finds. -/
theorem update_zero_rows_not_detected
    (dbS : Table Bool) (dbL : Table Int) (user id : Int)
    (sS : RecFields Bool) (sL : RecFields Int)
    (hS : ∀ r ∈ dbS.rows, ¬(r.id = id ∧ r.user = user))
    (hL : ∀ r ∈ dbL.rows, ¬(r.id = id ∧ r.user = user)) :
    updateSwitch none dbS user id sS = .ok (dbS, getSwitch dbS sS.user id) ∧
    updateLight none dbL user id sL = .ok (dbL, getLight dbL sL.user id) :=
  ⟨daoUpdate_no_match hS, daoUpdate_no_match hL⟩

/-- Witness for C3: updating switch id 1 for user 1 when the only row with
id 1 belongs to user 2 resolves (no NotFound from the write), leaves the
table unchanged, and returns the result of the read-back. -/
theorem update_zero_rows_not_detected_witness :
    updateSwitch none ⟨[⟨1, 0, true, 2⟩], 2⟩ 1 1 ⟨5, false, 1⟩ =
      .ok (⟨[⟨1, 0, true, 2⟩], 2⟩, .err "Switch not found.") ∧
    updateLight none ⟨[], 1⟩ 1 7 ⟨5, 3, 1⟩ =
      .ok (⟨[], 1⟩, .err "Light not found.") := by
  have h := update_zero_rows_not_detected ⟨[⟨1, 0, true, 2⟩], 2⟩ ⟨[], 1⟩ 1 1
    ⟨5, false, 1⟩ ⟨5, 3, 1⟩ (by decide) (by decide)
  exact ⟨h.1, h.2⟩

/-- Claim C4: `update(user, id, record)` applied to an existing row matching
`id` and `user` changes only the `value` and `date` fields of that row, keeps
the `id` and `user` fields of every row, leaves rows not matching `id`+`user`
unchanged, and neither adds nor removes rows. -/
theorem update_frame_effect
    (dbS : Table Bool) (dbL : Table Int) (user id : Int)
    (sS : RecFields Bool) (sL : RecFields Int) :
    (∃ db2 res, updateSwitch none dbS user id sS = .ok (db2, res) ∧
      db2.nextId = dbS.nextId ∧
      db2.rows.length = dbS.rows.length ∧
      (∀ r ∈ dbS.rows, r.id = id ∧ r.user = user →
        ({ r with date := sS.date, value := sS.value } : Row Bool) ∈ db2.rows) ∧
      (∀ r ∈ dbS.rows, ¬(r.id = id ∧ r.user = user) → r ∈ db2.rows) ∧
      (∀ r2 ∈ db2.rows, ∃ r, r ∈ dbS.rows ∧ r2.id = r.id ∧ r2.user = r.user ∧
        (r2 = r ∨ r2 = { r with date := sS.date, value := sS.value }))) ∧
    (∃ db2 res, updateLight none dbL user id sL = .ok (db2, res) ∧
      db2.nextId = dbL.nextId ∧
      db2.rows.length = dbL.rows.length ∧
      (∀ r ∈ dbL.rows, r.id = id ∧ r.user = user →
        ({ r with date := sL.date, value := sL.value } : Row Int) ∈ db2.rows) ∧
      (∀ r ∈ dbL.rows, ¬(r.id = id ∧ r.user = user) → r ∈ db2.rows) ∧
      (∀ r2 ∈ db2.rows, ∃ r, r ∈ dbL.rows ∧ r2.id = r.id ∧ r2.user = r.user ∧
        (r2 = r ∨ r2 = { r with date := sL.date, value := sL.value }))) :=
  ⟨daoUpdate_frame "Switch not found." dbS user id sS,
   daoUpdate_frame "Light not found." dbL user id sL⟩

/-- Witness for C4: on a two-row table, the update rewrites the matching
row's date and value in place (same id, same user) and leaves the other
user's row untouched. -/
theorem update_frame_effect_witness :
    ({ (⟨3, 0, true, 1⟩ : Row Bool) with date := 9, value := false } : Row Bool) ∈
      (Table.mk [⟨3, 9, false, 1⟩, ⟨4, 0, true, 2⟩] 5).rows ∧
    (⟨4, 0, true, 2⟩ : Row Bool) ∈
      (Table.mk [⟨3, 9, false, 1⟩, ⟨4, 0, true, 2⟩] 5).rows := by
  have h := (update_frame_effect ⟨[⟨3, 0, true, 1⟩, ⟨4, 0, true, 2⟩], 5⟩ ⟨[], 1⟩
    1 3 ⟨9, false, 1⟩ ⟨9, 3, 1⟩).1
  obtain ⟨db2, res, heq, _, _, hmatch, hkeep, _⟩ := h
  have hdb2 : db2 = ⟨[⟨3, 9, false, 1⟩, ⟨4, 0, true, 2⟩], 5⟩ := by
    have : updateSwitch none ⟨[⟨3, 0, true, 1⟩, ⟨4, 0, true, 2⟩], 5⟩ 1 3 ⟨9, false, 1⟩ =
        .ok (⟨[⟨3, 9, false, 1⟩, ⟨4, 0, true, 2⟩], 5⟩,
          .row ⟨3, 9, false, 1⟩) := rfl
    have h2 := Except.ok.inj (this.symm.trans heq)
    exact (congrArg Prod.fst h2).symm
  constructor
  · rw [← hdb2]
    exact hmatch ⟨3, 0, true, 1⟩ (by decide) (by decide)
  · rw [← hdb2]
    exact hkeep ⟨4, 0, true, 2⟩ (by decide) (by decide)

/-- Claim C6: `delete(user, id)` succeeds whether or not a matching row
exists, and a subsequent `get(user, id)` always yields the NotFound object,
regardless of whether `id` existed before deletion. -/
theorem delete_idempotent (dbT : Table Int) (dbL : Table Int) (user id : Int) :
    (∃ db2, deleteTemperature none dbT user id = .ok db2 ∧
      getTemperature db2 user id = .err "Temperature not found.") ∧
    (∃ db2, deleteLight none dbL user id = .ok db2 ∧
      getLight db2 user id = .err "Light not found.") := by
  constructor
  · obtain ⟨db2, heq, hget, _, _⟩ := daoDelete_get_err "Temperature not found." dbT user id
    exact ⟨db2, heq, hget⟩
  · obtain ⟨db2, heq, hget, _, _⟩ := daoDelete_get_err "Light not found." dbL user id
    exact ⟨db2, heq, hget⟩

/-- Claim C5: for a well-formed table (every stored id below the
auto-increment counter), `create(record)` persists the record with the
auto-assigned id, the promise resolves with the read-back
`get(s.user, lastID)` which equals the created record except for the id, and
`create` rejects with the store error when the underlying write fails. -/
theorem create_roundtrip
    (dbT : Table Int) (dbL : Table Int) (sT sL : RecFields Int) (eT eL : String)
    (hT : ∀ r ∈ dbT.rows, r.id < dbT.nextId)
    (hL : ∀ r ∈ dbL.rows, r.id < dbL.nextId) :
    (∃ db2, createTemperature none dbT sT =
        .ok (db2, .row ⟨dbT.nextId, sT.date, sT.value, sT.user⟩) ∧
      getTemperature db2 sT.user dbT.nextId =
        .row ⟨dbT.nextId, sT.date, sT.value, sT.user⟩ ∧
      (∀ r ∈ dbT.rows, r ∈ db2.rows)) ∧
    createTemperature (some eT) dbT sT = .error eT ∧
    (∃ db2, createLight none dbL sL =
        .ok (db2, .row ⟨dbL.nextId, sL.date, sL.value, sL.user⟩) ∧
      getLight db2 sL.user dbL.nextId =
        .row ⟨dbL.nextId, sL.date, sL.value, sL.user⟩ ∧
      (∀ r ∈ dbL.rows, r ∈ db2.rows)) ∧
    createLight (some eL) dbL sL = .error eL :=
  ⟨daoCreate_roundtrip "Temperature not found." dbT sT hT, rfl,
   daoCreate_roundtrip "Light not found." dbL sL hL, rfl⟩

/-- Witness for C5: creating a temperature reading `{date 7, value 21, user 1}`
in a one-row table assigns id 2 and the read-back returns exactly the created
record with that id; a failing write rejects with the error. -/
theorem create_roundtrip_witness :
    (∃ db2, createTemperature none ⟨[⟨1, 0, 15, 1⟩], 2⟩ ⟨7, 21, 1⟩ =
        .ok (db2, .row ⟨2, 7, 21, 1⟩) ∧
      getTemperature db2 1 2 = .row ⟨2, 7, 21, 1⟩ ∧
      (∀ r ∈ ([⟨1, 0, 15, 1⟩] : List (Row Int)), r ∈ db2.rows)) ∧
    createTemperature (some "SQLITE_CONSTRAINT") ⟨[⟨1, 0, 15, 1⟩], 2⟩ ⟨7, 21, 1⟩ =
      .error "SQLITE_CONSTRAINT" := by
  have h := create_roundtrip ⟨[⟨1, 0, 15, 1⟩], 2⟩ ⟨[], 1⟩ ⟨7, 21, 1⟩ ⟨7, 21, 1⟩
    "SQLITE_CONSTRAINT" "x" (by decide) (by decide)
  exact ⟨h.1, h.2.1⟩

theorem daoUpdate_ok_inv {msg : String} {dbErr : Option String} {db : Table V}
    {user id : Int} {s : RecFields V} {db2 : Table V} {res : DaoResult V}
    (h : daoUpdate msg dbErr db user id s = .ok (db2, res)) :
    db2 = ⟨db.rows.map (applyUpdate s id user), db.nextId⟩ ∧
    res = daoGet msg db2 s.user id := by
  cases dbErr with
  | some e => simp [daoUpdate] at h
  | none =>
    have h0 := Except.ok.inj ((daoUpdate_ok msg db user id s).symm.trans h)
    obtain ⟨h1, h2⟩ := Prod.mk.inj h0
    refine ⟨h1.symm, ?_⟩
    rw [← h2, h1]

theorem daoDelete_ok_inv {dbErr : Option String} {db : Table V} {user id : Int}
    {db2 : Table V} (h : daoDelete dbErr db user id = .ok db2) :
    db2 = ⟨db.rows.filter (fun r => !(matchesKey id user r)), db.nextId⟩ := by
  cases dbErr with
  | some e => simp [daoDelete] at h
  | none => exact (Except.ok.inj h).symm

theorem daoCreate_ok_inv {msg : String} {dbErr : Option String} {db : Table V}
    {s : RecFields V} {db2 : Table V} {res : DaoResult V}
    (h : daoCreate msg dbErr db s = .ok (db2, res)) :
    db2 = daoInsertRow db s ∧ res = daoGet msg db2 s.user db.nextId := by
  cases dbErr with
  | some e => simp [daoCreate] at h
  | none =>
    have h0 := Except.ok.inj h
    obtain ⟨h1, h2⟩ := Prod.mk.inj h0
    refine ⟨h1.symm, ?_⟩
    rw [← h2, h1]

theorem mapped_rows_cases {db : Table V} {s : RecFields V} {id user : Int} {r2 : Row V}
    (h : r2 ∈ db.rows.map (applyUpdate s id user)) :
    r2 ∈ db.rows ∨ r2.user = user := by
  obtain ⟨r, hr, hq⟩ := List.mem_map.mp h
  by_cases hm : r.id = id ∧ r.user = user
  · right
    rw [← hq, (applyUpdate_id_user s id user r).2]
    exact hm.2
  · left
    rw [← hq, applyUpdate_of_no_match hm]
    exact hr

theorem daoList_user {db : Table V} {user : Int} {r : Row V}
    (h : r ∈ daoList db user) : r ∈ db.rows ∧ r.user = user := by
  have := List.mem_filter.mp h
  exact ⟨this.1, by have := this.2; simpa using this⟩

theorem getLastTemperature_err_of_none {db : Table Int} {user : Int}
    (h : ∀ r ∈ db.rows, r.user ≠ user) :
    getLastTemperature db user = .err "There is no temperature for this sensor!" := by
  have hnil : daoList db user = [] := by
    rw [daoList, List.filter_eq_nil_iff]
    intro r hr
    simp only [beq_iff_eq]
    exact h r hr
  unfold getLastTemperature
  rw [hnil]
  rfl

theorem getLastTemperature_row_of_some {db : Table Int} {user : Int} {r : Row Int}
    (hr : r ∈ db.rows) (hu : r.user = user) :
    ∃ rm, getLastTemperature db user = .row rm := by
  have hmem : r ∈ daoList db user := List.mem_filter.mpr ⟨hr, by simp [hu]⟩
  cases hm : maxByDate (daoList db user) with
  | none =>
    exfalso
    rw [maxByDate_eq_none.mp hm] at hmem
    cases hmem
  | some rm =>
    refine ⟨rm, ?_⟩
    unfold getLastTemperature
    rw [hm]

theorem getLastTemperature_row_inv {db : Table Int} {user : Int} {r : Row Int}
    (h : getLastTemperature db user = .row r) :
    r ∈ db.rows ∧ r.user = user ∧
    ∀ x ∈ db.rows, x.user = user → x.date ≤ r.date := by
  cases hm : maxByDate (daoList db user) with
  | none => simp [getLastTemperature, hm] at h
  | some m =>
    simp only [getLastTemperature, hm] at h
    injection h with h2
    subst h2
    have hmem := daoList_user (maxByDate_mem hm)
    refine ⟨hmem.1, hmem.2, ?_⟩
    intro x hx hu
    exact maxByDate_ge hm x (List.mem_filter.mpr ⟨hx, by simp [hu]⟩)

/-- Claim C8: `getLastTemperature(user)` returns a temperature record with
the maximum date among the records owned by `user`, yields the NotFound
object when the user owns none, and the `/api/temperatures/last` route maps
that NotFound object to status 404. -/
theorem getLastTemperature_max (db : Table Int) (user : Int) :
    ((∀ r ∈ db.rows, r.user ≠ user) →
      getLastTemperature db user = .err "There is no temperature for this sensor!") ∧
    (∀ r ∈ db.rows, r.user = user → ∃ rm, getLastTemperature db user = .row rm) ∧
    (∀ rm, getLastTemperature db user = .row rm →
      rm ∈ db.rows ∧ rm.user = user ∧
      ∀ r ∈ db.rows, r.user = user → r.date ≤ rm.date) ∧
    (∀ m, getLastTemperature db 1 = .err m →
      getLastTemperatureRoute db = .notFound m ∧
      (getLastTemperatureRoute db).status = 404) := by
  refine ⟨getLastTemperature_err_of_none, ?_, ?_, ?_⟩
  · intro r hr hu
    exact getLastTemperature_row_of_some hr hu
  · intro rm h
    exact getLastTemperature_row_inv h
  · intro m h
    have hroute : getLastTemperatureRoute db = .notFound m := by
      unfold getLastTemperatureRoute
      rw [h]
    exact ⟨hroute, by rw [hroute]; rfl⟩

/-- Witness for C8: with user 1 owning readings dated 5 and 9 (and user 2
owning a later one), the latest reading for user 1 is the one dated 9; on an
empty table the route answers 404 with the DAO's message. -/
theorem getLastTemperature_max_witness :
    (⟨2, 9, 22, 1⟩ : Row Int) ∈
      ([⟨1, 5, 20, 1⟩, ⟨2, 9, 22, 1⟩, ⟨3, 50, 99, 2⟩] : List (Row Int)) ∧
    getLastTemperatureRoute ⟨[], 1⟩ =
      .notFound "There is no temperature for this sensor!" := by
  have h1 := (getLastTemperature_max
    ⟨[⟨1, 5, 20, 1⟩, ⟨2, 9, 22, 1⟩, ⟨3, 50, 99, 2⟩], 4⟩ 1).2.2.1
    ⟨2, 9, 22, 1⟩ (by decide)
  have h2 := (getLastTemperature_max ⟨[], 1⟩ 1).2.2.2
    "There is no temperature for this sensor!" (by decide)
  exact ⟨h1.1, h2.1⟩

/-- Claim C10: in `updateSwitch(user, id, s)` and `updateLight(user, id, s)`
the record resolved after the UPDATE is fetched with `s.user` rather than the
`user` argument: when `s.user ≠ user` the write still only touches rows of
`user`, but any returned row belongs to `s.user`, and the result is the
NotFound object when the `s.user` scope holds no row with that id. -/
theorem update_readback_scope
    (dbS : Table Bool) (dbL : Table Int) (user id : Int)
    (sS : RecFields Bool) (sL : RecFields Int)
    (_hS : sS.user ≠ user) (_hL : sL.user ≠ user) :
    (∃ db2 res, updateSwitch none dbS user id sS = .ok (db2, res) ∧
      (∀ r ∈ dbS.rows, r.user ≠ user → r ∈ db2.rows) ∧
      (∀ r ∈ dbS.rows, r.id = id ∧ r.user = user →
        ({ r with date := sS.date, value := sS.value } : Row Bool) ∈ db2.rows) ∧
      (∀ r, res = .row r → r.user = sS.user ∧ r.id = id) ∧
      ((∀ r ∈ dbS.rows, ¬(r.id = id ∧ r.user = sS.user)) →
        res = .err "Switch not found.")) ∧
    (∃ db2 res, updateLight none dbL user id sL = .ok (db2, res) ∧
      (∀ r ∈ dbL.rows, r.user ≠ user → r ∈ db2.rows) ∧
      (∀ r ∈ dbL.rows, r.id = id ∧ r.user = user →
        ({ r with date := sL.date, value := sL.value } : Row Int) ∈ db2.rows) ∧
      (∀ r, res = .row r → r.user = sL.user ∧ r.id = id) ∧
      ((∀ r ∈ dbL.rows, ¬(r.id = id ∧ r.user = sL.user)) →
        res = .err "Light not found.")) :=
  ⟨daoUpdate_readback "Switch not found." dbS user id sS,
   daoUpdate_readback "Light not found." dbL user id sL⟩

/-- Witness for C10: updating switch id 5 as user 1 with a record whose
`user` field is 2 resolves, and any row it returns belongs to user 2. -/
theorem update_readback_scope_witness :
    ∃ db2 res, updateSwitch none ⟨[⟨5, 0, false, 2⟩], 6⟩ 1 5 ⟨9, true, 2⟩ =
        .ok (db2, res) ∧
      (∀ r, res = .row r → r.user = 2 ∧ r.id = 5) := by
  obtain ⟨db2, res, heq, _, _, hrow, _⟩ :=
    (update_readback_scope ⟨[⟨5, 0, false, 2⟩], 6⟩ ⟨[], 1⟩ 1 5
      ⟨9, true, 2⟩ ⟨9, 7, 2⟩ (by decide) (by decide)).1
  exact ⟨db2, res, heq, hrow⟩

/-- Claim C9: a PUT on `/api/switches/:id` or `/api/lights/:id` whose body
passes field validation but whose body id differs from the path id answers
422 `{error: 'URL and body id mismatch'}` and performs no store operation
(the table is returned unchanged). -/
theorem put_id_mismatch_422
    (dbErr : Option String) (dbS : Table Bool) (dbL : Table Int)
    (paramId bodyId bodyUser : Int) (vmsg : String) (bvS : Bool) (bvL : Int)
    (now : Int) (hne : bodyId ≠ paramId) :
    putSwitchRoute dbErr dbS paramId true vmsg bodyId bodyUser bvS now =
      (.unprocessable "URL and body id mismatch", dbS) ∧
    putLightRoute dbErr dbL paramId true vmsg bodyId bodyUser bvL now =
      (.unprocessable "URL and body id mismatch", dbL) ∧
    (Resp.unprocessable "URL and body id mismatch" : Resp Bool).status = 422 := by
  refine ⟨?_, ?_, rfl⟩
  · unfold putSwitchRoute
    rw [if_neg (by decide), if_pos hne]
  · unfold putLightRoute
    rw [if_neg (by decide), if_pos hne]

/-- Witness for C9: `PUT /api/switches/5` with body id 7 answers the 422
mismatch error and leaves the table untouched. -/
theorem put_id_mismatch_422_witness :
    putSwitchRoute none ⟨[], 1⟩ 5 true "" 7 1 true 0 =
      (.unprocessable "URL and body id mismatch", (⟨[], 1⟩ : Table Bool)) :=
  (put_id_mismatch_422 none ⟨[], 1⟩ ⟨[], 1⟩ 5 7 1 "" true 0 0 (by decide)).1

/-- Claim C7: any two failing login attempts — whether the username is
unknown or the password is wrong — produce the same 401 response with the
uniform message `Incorrect username or password`, and a matching credential
pair produces 200 with the user object. -/
theorem login_uniform_failure
    (credDb : List Credential) (un1 pw1 un2 pw2 un3 pw3 : String) (u : User)
    (h1 : getUser credDb un1 pw1 = none)
    (h2 : getUser credDb un2 pw2 = none) :
    postSessionsRoute credDb un1 pw1 = postSessionsRoute credDb un2 pw2 ∧
    postSessionsRoute credDb un1 pw1 =
      .unauthorizedErr "Incorrect username or password" ∧
    (postSessionsRoute credDb un1 pw1).status = 401 ∧
    (getUser credDb un3 pw3 = some u →
      postSessionsRoute credDb un3 pw3 = .okUser u ∧
      (postSessionsRoute credDb un3 pw3).status = 200) := by
  have e1 : postSessionsRoute credDb un1 pw1 =
      .unauthorizedErr "Incorrect username or password" := by
    unfold postSessionsRoute localVerify
    rw [h1]
  have e2 : postSessionsRoute credDb un2 pw2 =
      .unauthorizedErr "Incorrect username or password" := by
    unfold postSessionsRoute localVerify
    rw [h2]
  refine ⟨e1.trans e2.symm, e1, by rw [e1]; rfl, ?_⟩
  intro h3
  have e3 : postSessionsRoute credDb un3 pw3 = .okUser u := by
    unfold postSessionsRoute localVerify
    rw [h3]
  exact ⟨e3, by rw [e3]; rfl⟩

/-- Witness for C7: against a store holding only alice's credentials, the
unknown-username attempt and the wrong-password attempt return the same 401
response, and alice's correct pair returns her user object. -/
theorem login_uniform_failure_witness :
    postSessionsRoute [⟨"alice", "secret", ⟨1, "alice", "Alice"⟩⟩] "bob" "secret" =
      postSessionsRoute [⟨"alice", "secret", ⟨1, "alice", "Alice"⟩⟩] "alice" "wrong" ∧
    postSessionsRoute [⟨"alice", "secret", ⟨1, "alice", "Alice"⟩⟩] "alice" "secret" =
      .okUser ⟨1, "alice", "Alice"⟩ := by
  have h := login_uniform_failure [⟨"alice", "secret", ⟨1, "alice", "Alice"⟩⟩]
    "bob" "secret" "alice" "wrong" "alice" "secret" ⟨1, "alice", "Alice"⟩ rfl rfl
  exact ⟨h.1, (h.2.2.2 rfl).1⟩

/-- Counterexample to C1 as stated: `updateSwitch` called with user argument
1 on a table whose only row (id 5) belongs to user 2 performs no write — yet
its read-back, keyed by the supplied record's `user` field, returns user 2's
row, so the operation returns a row whose `user` field differs from the user
argument. -/
theorem updateSwitch_returns_foreign_user_row :
    updateSwitch none ⟨[⟨5, 0, false, 2⟩], 6⟩ 1 5 ⟨9, true, 2⟩ =
      .ok (⟨[⟨5, 0, false, 2⟩], 6⟩, .row ⟨5, 0, false, 2⟩) ∧
    (⟨5, 0, false, 2⟩ : Row Bool).user ≠ 1 :=
  ⟨rfl, by decide⟩

/-- Claim C1 (amended): every SQL statement of the store filters by its user
parameter — `get(u2, id)` yields NotFound whenever no row with that id
belongs to `u2`, `get`/`list`/`getLatest` only return rows owned by the user
argument, and `delete`/`update` never mutate a row owned by another user;
the one exception is `update`'s read-back, which is keyed by the supplied
record's `user` field instead of the user argument (see C10), so `update`
alone can return a foreign row. -/
theorem store_owner_scoping
    (dbS : Table Bool) (dbL : Table Int) (dbT : Table Int)
    (user id : Int) (s : RecFields Bool) :
    ((∀ r ∈ dbS.rows, r.id = id → r.user ≠ user) →
      getSwitch dbS user id = .err "Switch not found.") ∧
    (∀ r, getSwitch dbS user id = .row r →
      r ∈ dbS.rows ∧ r.id = id ∧ r.user = user) ∧
    (∀ r ∈ listLights dbL user, r.user = user) ∧
    (∀ r, getLastTemperature dbT user = .row r → r.user = user) ∧
    (∀ db2, deleteSwitch none dbS user id = .ok db2 →
      (∀ r ∈ dbS.rows, r.user ≠ user → r ∈ db2.rows) ∧
      (∀ r ∈ db2.rows, r ∈ dbS.rows)) ∧
    (∀ db2 res, updateSwitch none dbS user id s = .ok (db2, res) →
      ∀ r ∈ dbS.rows, r.user ≠ user → r ∈ db2.rows) := by
  refine ⟨?_, ?_, ?_, ?_, ?_, ?_⟩
  · intro h
    exact daoGet_err_of_no_match (fun r hr hc => h r hr hc.1 hc.2)
  · intro r h
    exact daoGet_row_mem h
  · intro r hr
    exact (daoList_user hr).2
  · intro r h
    exact (getLastTemperature_row_inv h).2.1
  · intro db2 heq
    obtain ⟨db2x, heqx, _, hkeep, hsub⟩ :=
      daoDelete_get_err "Switch not found." dbS user id
    have hdb : db2x = db2 := Except.ok.inj (heqx.symm.trans heq)
    subst hdb
    exact ⟨fun r hr hu => hkeep r hr (fun hc => hu hc.2), hsub⟩
  · intro db2 res heq
    obtain ⟨db2x, resx, heqx, hforeign, _, _, _⟩ :=
      daoUpdate_readback "Switch not found." dbS user id s
    have h0 := Except.ok.inj (heqx.symm.trans heq)
    have hdb : db2x = db2 := congrArg Prod.fst h0
    exact fun r hr hu => hdb ▸ hforeign r hr hu

/-- Witness for C1 (amended): user 1 gets NotFound for switch id 5 owned by
user 2, and deleting that id as user 1 leaves user 2's row in place. -/
theorem store_owner_scoping_witness :
    getSwitch ⟨[⟨5, 0, false, 2⟩], 6⟩ 1 5 = .err "Switch not found." ∧
    (⟨5, 0, false, 2⟩ : Row Bool) ∈
      (Table.mk [⟨5, 0, false, 2⟩] 6 : Table Bool).rows := by
  have h := store_owner_scoping ⟨[⟨5, 0, false, 2⟩], 6⟩ ⟨[], 1⟩ ⟨[], 1⟩ 1 5
    ⟨0, false, 1⟩
  refine ⟨h.1 (by decide), ?_⟩
  exact (h.2.2.2.2.1 ⟨[⟨5, 0, false, 2⟩], 6⟩ rfl).1
    ⟨5, 0, false, 2⟩ (by decide) (by decide)

/-- Counterexample to C2 as stated: `PUT /api/switches/5` is a resource route,
yet with body `{id: 5, user: 2, value: false}` it reads and updates user 2's
row and answers 200 with it — while `getSwitch` at the allegedly substituted
fixed user 1 yields NotFound — so the requesting user passed to the store is
the body's `user`, not the fixed identity 1. -/
theorem putSwitchRoute_uses_body_user :
    putSwitchRoute none ⟨[⟨5, 0, true, 2⟩], 6⟩ 5 true "" 5 2 false 9 =
      (.okJson (.row ⟨5, 9, false, 2⟩), ⟨[⟨5, 9, false, 2⟩], 6⟩) ∧
    getSwitch ⟨[⟨5, 0, true, 2⟩], 6⟩ 1 5 = .err "Switch not found." ∧
    (2 : Int) ≠ 1 :=
  ⟨rfl, rfl, by decide⟩

/-- Claim C2 (amended): authentication enforcement is disabled on every
resource route (`isLoggedIn` is commented out, so no resource route ever
answers 401), and the fixed user identity 1 is passed to the store on all
temperature routes and on the switch/light GET routes; the switch/light PUT
routes instead pass the request body's `user` field to both the read and the
update. -/
theorem routes_fixed_user_substitution
    (dbT : Table Int) (dbS : Table Bool) (dbL : Table Int)
    (id paramId bodyId bodyUser : Int) (vmsg : String)
    (bvS : Bool) (bvL : Int) (now : Int) (dbErr : Option String) (value : Int) :
    (∀ r ∈ listTemperatures dbT 1 none, r.user = 1) ∧
    (listTemperaturesRoute dbT).status ≠ 401 ∧
    (∀ r, getTemperatureRoute dbT id = .okRow r → r ∈ dbT.rows ∧ r.user = 1) ∧
    (getTemperatureRoute dbT id).status ≠ 401 ∧
    (∀ r, getLastTemperatureRoute dbT = .okRow r → r.user = 1) ∧
    (getLastTemperatureRoute dbT).status ≠ 401 ∧
    (∀ resp db2, postTemperatureRoute dbErr dbT true vmsg value now = (resp, db2) →
      (∀ r ∈ db2.rows, r ∈ dbT.rows ∨ r.user = 1) ∧ resp.status ≠ 401) ∧
    (∀ resp db2, deleteTemperatureRoute dbErr dbT id = (resp, db2) →
      (∀ r ∈ dbT.rows, r.user ≠ 1 → r ∈ db2.rows) ∧ resp.status ≠ 401) ∧
    (∀ r, getSwitchRoute dbS id = .okRow r → r ∈ dbS.rows ∧ r.user = 1) ∧
    (getSwitchRoute dbS id).status ≠ 401 ∧
    (∀ r, getLightRoute dbL id = .okRow r → r ∈ dbL.rows ∧ r.user = 1) ∧
    (getLightRoute dbL id).status ≠ 401 ∧
    (∀ resp db2,
      putSwitchRoute dbErr dbS paramId true vmsg bodyId bodyUser bvS now = (resp, db2) →
      (∀ r, resp = .okJson (.row r) → r.user = bodyUser) ∧
      (∀ r ∈ db2.rows, r ∈ dbS.rows ∨ r.user = bodyUser) ∧
      resp.status ≠ 401) ∧
    (∀ resp db2,
      putLightRoute dbErr dbL paramId true vmsg bodyId bodyUser bvL now = (resp, db2) →
      (∀ r, resp = .okJson (.row r) → r.user = bodyUser) ∧
      (∀ r ∈ db2.rows, r ∈ dbL.rows ∨ r.user = bodyUser) ∧
      resp.status ≠ 401) := by
  refine ⟨?_, ?_, ?_, ?_, ?_, ?_, ?_, ?_, ?_, ?_, ?_, ?_, ?_, ?_⟩
  · intro r hr
    exact (daoList_user hr).2
  · simp only [listTemperaturesRoute, Resp.status]
    decide
  · intro r h
    cases hget : getTemperature dbT 1 id with
    | err m => simp only [getTemperatureRoute, hget] at h; cases h
    | row r0 =>
      simp only [getTemperatureRoute, hget] at h
      injection h with h2
      subst h2
      have hm := daoGet_row_mem hget
      exact ⟨hm.1, hm.2.2⟩
  · cases hget : getTemperature dbT 1 id with
    | err m => simp only [getTemperatureRoute, hget, Resp.status]; decide
    | row r0 => simp only [getTemperatureRoute, hget, Resp.status]; decide
  · intro r h
    cases hm : getLastTemperature dbT 1 with
    | err m => simp only [getLastTemperatureRoute, hm] at h; cases h
    | row r0 =>
      simp only [getLastTemperatureRoute, hm] at h
      injection h with h2
      subst h2
      exact (getLastTemperature_row_inv hm).2.1
  · cases hm : getLastTemperature dbT 1 with
    | err m => simp only [getLastTemperatureRoute, hm, Resp.status]; decide
    | row r0 => simp only [getLastTemperatureRoute, hm, Resp.status]; decide
  · intro resp db2 heq
    unfold postTemperatureRoute at heq
    rw [if_neg (by decide)] at heq
    cases hc : createTemperature dbErr dbT ⟨now, value, 1⟩ with
    | error e =>
      simp only [hc] at heq
      obtain ⟨h1, h2⟩ := Prod.mk.inj heq
      constructor
      · intro r hr
        rw [← h2] at hr
        exact Or.inl hr
      · rw [← h1]
        simp only [Resp.status]
        decide
    | ok p =>
      obtain ⟨db2x, resx⟩ := p
      simp only [hc] at heq
      obtain ⟨h1, h2⟩ := Prod.mk.inj heq
      obtain ⟨hdb, _⟩ := daoCreate_ok_inv hc
      constructor
      · intro r hr
        rw [← h2, hdb] at hr
        simp only [daoInsertRow] at hr
        rcases List.mem_append.mp hr with h | h
        · exact Or.inl h
        · right
          rw [List.mem_singleton.mp h]
      · rw [← h1]
        simp only [Resp.status]
        decide
  · intro resp db2 heq
    unfold deleteTemperatureRoute at heq
    cases hc : deleteTemperature dbErr dbT 1 id with
    | error e =>
      simp only [hc] at heq
      obtain ⟨h1, h2⟩ := Prod.mk.inj heq
      constructor
      · intro r hr _
        rw [← h2]
        exact hr
      · rw [← h1]
        simp only [Resp.status]
        decide
    | ok db2x =>
      simp only [hc] at heq
      obtain ⟨h1, h2⟩ := Prod.mk.inj heq
      have hdb := daoDelete_ok_inv hc
      constructor
      · intro r hr hu
        rw [← h2, hdb]
        apply List.mem_filter.mpr
        refine ⟨hr, ?_⟩
        rw [Bool.not_eq_true', ← Bool.not_eq_true]
        intro hk
        exact hu (matchesKey_iff.mp hk).2
      · rw [← h1]
        simp only [Resp.status]
        decide
  · intro r h
    cases hget : getSwitch dbS 1 id with
    | err m => simp only [getSwitchRoute, hget] at h; cases h
    | row r0 =>
      simp only [getSwitchRoute, hget] at h
      injection h with h2
      subst h2
      have hm := daoGet_row_mem hget
      exact ⟨hm.1, hm.2.2⟩
  · cases hget : getSwitch dbS 1 id with
    | err m => simp only [getSwitchRoute, hget, Resp.status]; decide
    | row r0 => simp only [getSwitchRoute, hget, Resp.status]; decide
  · intro r h
    cases hget : getLight dbL 1 id with
    | err m => simp only [getLightRoute, hget] at h; cases h
    | row r0 =>
      simp only [getLightRoute, hget] at h
      injection h with h2
      subst h2
      have hm := daoGet_row_mem hget
      exact ⟨hm.1, hm.2.2⟩
  · cases hget : getLight dbL 1 id with
    | err m => simp only [getLightRoute, hget, Resp.status]; decide
    | row r0 => simp only [getLightRoute, hget, Resp.status]; decide
  · intro resp db2 heq
    unfold putSwitchRoute at heq
    rw [if_neg (by decide)] at heq
    by_cases hmis : bodyId ≠ paramId
    · rw [if_pos hmis] at heq
      obtain ⟨h1, h2⟩ := Prod.mk.inj heq
      refine ⟨?_, ?_, ?_⟩
      · intro r hres
        rw [← h1] at hres
        cases hres
      · intro r hr
        rw [← h2] at hr
        exact Or.inl hr
      · rw [← h1]
        simp only [Resp.status]
        decide
    · rw [if_neg hmis] at heq
      cases hget : getSwitch dbS bodyUser bodyId with
      | err m =>
        simp only [hget] at heq
        obtain ⟨h1, h2⟩ := Prod.mk.inj heq
        refine ⟨?_, ?_, ?_⟩
        · intro r hres
          rw [← h1] at hres
          cases hres
        · intro r hr
          rw [← h2] at hr
          exact Or.inl hr
        · rw [← h1]
          simp only [Resp.status]
          decide
      | row s0 =>
        simp only [hget] at heq
        cases hupd : updateSwitch dbErr dbS bodyUser s0.id ⟨now, bvS, s0.user⟩ with
        | error e =>
          simp only [hupd] at heq
          obtain ⟨h1, h2⟩ := Prod.mk.inj heq
          refine ⟨?_, ?_, ?_⟩
          · intro r hres
            rw [← h1] at hres
            cases hres
          · intro r hr
            rw [← h2] at hr
            exact Or.inl hr
          · rw [← h1]
            simp only [Resp.status]
            decide
        | ok p =>
          obtain ⟨db2x, resx⟩ := p
          simp only [hupd] at heq
          obtain ⟨h1, h2⟩ := Prod.mk.inj heq
          obtain ⟨hdb, hres⟩ := daoUpdate_ok_inv hupd
          have hs0 := daoGet_row_mem hget
          refine ⟨?_, ?_, ?_⟩
          · intro r hres2
            rw [← h1] at hres2
            injection hres2 with h3
            have h4 := daoGet_row_mem (hres.symm.trans h3)
            rw [h4.2.2]
            exact hs0.2.2
          · intro r hr
            rw [← h2, hdb] at hr
            exact mapped_rows_cases hr
          · rw [← h1]
            simp only [Resp.status]
            decide
  · intro resp db2 heq
    unfold putLightRoute at heq
    rw [if_neg (by decide)] at heq
    by_cases hmis : bodyId ≠ paramId
    · rw [if_pos hmis] at heq
      obtain ⟨h1, h2⟩ := Prod.mk.inj heq
      refine ⟨?_, ?_, ?_⟩
      · intro r hres
        rw [← h1] at hres
        cases hres
      · intro r hr
        rw [← h2] at hr
        exact Or.inl hr
      · rw [← h1]
        simp only [Resp.status]
        decide
    · rw [if_neg hmis] at heq
      cases hget : getLight dbL bodyUser bodyId with
      | err m =>
        simp only [hget] at heq
        obtain ⟨h1, h2⟩ := Prod.mk.inj heq
        refine ⟨?_, ?_, ?_⟩
        · intro r hres
          rw [← h1] at hres
          cases hres
        · intro r hr
          rw [← h2] at hr
          exact Or.inl hr
        · rw [← h1]
          simp only [Resp.status]
          decide
      | row s0 =>
        simp only [hget] at heq
        cases hupd : updateLight dbErr dbL bodyUser s0.id ⟨now, bvL, s0.user⟩ with
        | error e =>
          simp only [hupd] at heq
          obtain ⟨h1, h2⟩ := Prod.mk.inj heq
          refine ⟨?_, ?_, ?_⟩
          · intro r hres
            rw [← h1] at hres
            cases hres
          · intro r hr
            rw [← h2] at hr
            exact Or.inl hr
          · rw [← h1]
            simp only [Resp.status]
            decide
        | ok p =>
          obtain ⟨db2x, resx⟩ := p
          simp only [hupd] at heq
          obtain ⟨h1, h2⟩ := Prod.mk.inj heq
          obtain ⟨hdb, hres⟩ := daoUpdate_ok_inv hupd
          have hs0 := daoGet_row_mem hget
          refine ⟨?_, ?_, ?_⟩
          · intro r hres2
            rw [← h1] at hres2
            injection hres2 with h3
            have h4 := daoGet_row_mem (hres.symm.trans h3)
            rw [h4.2.2]
            exact hs0.2.2
          · intro r hr
            rw [← h2, hdb] at hr
            exact mapped_rows_cases hr
          · rw [← h1]
            simp only [Resp.status]
            decide

/-- Witness for C2 (amended): the switch GET route never answers 401, and the
row returned by the switch PUT route on the concrete body `{user: 2}` belongs
to user 2 (the body-supplied user), not to the fixed user 1. -/
theorem routes_fixed_user_substitution_witness :
    (⟨5, 9, false, 2⟩ : Row Bool).user = 2 ∧
    (getSwitchRoute ⟨[⟨5, 0, true, 2⟩], 6⟩ 5).status ≠ 401 := by
  have h := routes_fixed_user_substitution ⟨[], 1⟩ ⟨[⟨5, 0, true, 2⟩], 6⟩ ⟨[], 1⟩
    5 5 5 2 "" false 0 9 none 0
  refine ⟨?_, h.2.2.2.2.2.2.2.2.2.1⟩
  exact (h.2.2.2.2.2.2.2.2.2.2.2.2.1 (.okJson (.row ⟨5, 9, false, 2⟩))
    ⟨[⟨5, 9, false, 2⟩], 6⟩ rfl).1 ⟨5, 9, false, 2⟩ rfl
